import Mathlib

/-!
# CarmoCream WhatsApp server — verification of the lifecycle / persistence layer

Shallow embedding of the repository's JavaScript sources:

* `src/server.js` (the v2 server: `SupabaseStore`, `waitForFile`, `initClient`
  with its lifecycle event handlers, the `POST /send` handler);
* `src/unnamed/part_002` (the "secure" variant: `validatePhone`,
  `sanitizeMessage`, its `POST /send` handler, and its `initClient` which arms
  a periodic `setInterval(saveSession, ...)` backstop timer);
* `src/unnamed/part_000` / `src/unnamed/part_001` (earlier near-duplicate
  variants; where they matter they agree with the two files above).

Pure computations (phone normalization, message sanitization, delay
arithmetic, the polling loop of `waitForFile`) are translated directly into
Lean functions.  Stateful code (the module-level `isReady` / `initAttempts` /
`client` variables mutated by the lifecycle event handlers) is translated
into explicit state-passing: each JavaScript event handler becomes a Lean
function from state to state, and traces of the program are compositions of
those functions.  Fallible external calls (Supabase, the filesystem) are
passed in as explicit outcome values, with a thrown JavaScript exception
modelled as `Except.error`; a `try { ... } catch { ... }` block is modelled
by `tryCatch`.
-/

/-! ## Phone validation and message sanitization (src/unnamed/part_002, lines 90-106)

`validatePhone(raw)` in the source:
```
const digits = String(raw || '').replace(/\D/g, '')
if (digits.length < 9 || digits.length > 15) return null
if (digits.startsWith('34') && digits.length === 11) return digits
if (digits.length === 9) return `34${digits}`
if (digits.length >= 10) return digits
return null
```
Strings are modelled on their underlying character lists; `replace(/\D/g,'')`
is `List.filter Char.isDigit`, and `startsWith('34')` on a digit string is
`take 2 = ['3','4']` (for strings shorter than 2 both are false). -/

def digitsOnlyL (l : List Char) : List Char :=
  l.filter fun c => c.isDigit

def validatePhoneL (raw : List Char) : Option (List Char) :=
  let digits := digitsOnlyL raw
  if digits.length < 9 ∨ 15 < digits.length then none
  else if digits.take 2 = ['3', '4'] ∧ digits.length = 11 then some digits
  else if digits.length = 9 then some ('3' :: '4' :: digits)
  else if 10 ≤ digits.length then some digits
  else none

def digitsOnlyS (s : String) : String :=
  String.mk (digitsOnlyL s.data)

def validatePhone (raw : String) : Option String :=
  (validatePhoneL raw.data).map fun l => String.mk l

/-- `sanitizeMessage(raw)` from src/unnamed/part_002:
```
if (!raw || typeof raw !== 'string') return null
const trimmed = raw.trim()
if (trimmed.length === 0 || trimmed.length > 2000) return null
return trimmed
```
A missing / non-string body field is `none`; the falsy empty string is
rejected by the `!raw` test before trimming. -/
def sanitizeMessage (raw : Option String) : Option String :=
  match raw with
  | none => none
  | some s =>
    if s.isEmpty then none
    else
      let trimmed := s.trim
      if trimmed.length = 0 ∨ 2000 < trimmed.length then none
      else some trimmed

/-! ## The `POST /send` handlers

The handlers are functions of: the module-level flags (`isReady`, whether
`client` is non-null), the outcome the opaque client would return for
`sendMessage` (irrelevant branches are simply not reached), and the request
body.  They return the HTTP status code together with the argument passed to
`client.sendMessage` — `none` when the opaque client is never invoked. -/

structure SendCall where
  chatId : String
  body : String
deriving DecidableEq, Repr

/-- JavaScript truthiness of a possibly-missing string field
(`undefined` and `''` are falsy). -/
def truthy : Option String → Bool
  | none => false
  | some s => !s.isEmpty

/-- The `POST /send` handler of src/server.js (lines 293-323):
```
const { phone, message } = req.body
if (!phone || !message) return res.status(400)...
if (!isReady || !client) return res.status(503)...
const clean  = String(phone).replace(/[^\d]/g, '')
const chatId = clean + '@c.us'
try { await client.sendMessage(chatId, message); res.json(...) }
catch (err) { res.status(500)... }
```
-/
def sendHandler (isReady clientLive sendOk : Bool)
    (phone message : Option String) : Nat × Option SendCall :=
  if !truthy phone || !truthy message then (400, none)
  else if !isReady || !clientLive then (503, none)
  else
    let clean := digitsOnlyS (phone.getD "")
    let chatId := clean ++ "@c.us"
    if sendOk then (200, some ⟨chatId, message.getD ""⟩)
    else (500, some ⟨chatId, message.getD ""⟩)

/-- The `POST /send` handler of src/unnamed/part_002 (lines 270-299):
```
const phone   = validatePhone(req.body.phone)
const message = sanitizeMessage(req.body.message)
if (!phone)   return res.status(400)...
if (!message) return res.status(400)...
if (!isReady || !client) return res.status(503)...
const chatId = `${phone}@c.us`
try { await client.sendMessage(chatId, message); res.json(...) }
catch (err) { res.status(500)... }
```
`String(raw || '')` inside `validatePhone` turns a missing `phone` field into
the empty string. -/
def sendHandlerSecure (isReady clientLive sendOk : Bool)
    (rawPhone rawMessage : Option String) : Nat × Option SendCall :=
  match validatePhone (rawPhone.getD "") with
  | none => (400, none)
  | some phone =>
    match sanitizeMessage rawMessage with
    | none => (400, none)
    | some message =>
      if !isReady || !clientLive then (503, none)
      else
        let chatId := phone ++ "@c.us"
        if sendOk then (200, some ⟨chatId, message⟩)
        else (500, some ⟨chatId, message⟩)

/-! ## Bounded-wait file materialization (src/server.js, lines 52-67)

```
function waitForFile(filePath, timeoutMs = 20000, intervalMs = 500) {
  return new Promise((resolve, reject) => {
    const start = Date.now()
    const check = () => {
      if (fs.existsSync(filePath)) { ...; return resolve() }
      if (Date.now() - start >= timeoutMs) {
        return reject(new Error(`Timeout esperando archivo: ...`))
      }
      setTimeout(check, intervalMs)
    }
    check()
  })
}
```
The filesystem is modelled as a predicate `ex : Nat → Bool`, giving at each
elapsed time `t` (in ms since `start`) whether the file exists.  `check` runs
at elapsed times `0, intervalMs, 2*intervalMs, ...`; the result is `some t`
(resolve, at the poll time that found the file) or `none` (reject with the
timeout error).  The recursion terminates because the source's polling
interval is positive (the default, and the only interval ever used by a
caller, is 500 ms); that fact is taken as the hypothesis `hpos`. -/

/-- The positivity of the source's 500 ms polling interval, as one shared
term so that every `waitForFile` application at the default interval is
syntactically identical. -/
def pos500 : 0 < (500 : Nat) := Nat.succ_pos 499

def waitForFile (ex : Nat → Bool) (timeoutMs intervalMs : Nat)
    (hpos : 0 < intervalMs) (t : Nat) : Option Nat :=
  if ex t then some t
  else if timeoutMs ≤ t then none
  else waitForFile ex timeoutMs intervalMs hpos (t + intervalMs)
termination_by timeoutMs - t
decreasing_by omega

/-! ## SupabaseStore (src/server.js, lines 78-162)

Each method wraps its body in `try { ... } catch (e) { console.error(...) }`
and never rethrows.  The body's interaction with Supabase / the filesystem is
passed in as an explicit outcome; a thrown exception is `Except.error`, and
`tryCatch` is the translation of the `try/catch` block. -/

def tryCatch {α : Type} (body : Except String α) (handler : String → α) : α :=
  match body with
  | .ok a => a
  | .error _ => handler ""

/-- Outcome of the awaited
`supabase.from(...).select('data').eq('id', session).maybeSingle()` call in
`extract`: the call can throw (`thrown`, caught by the method's `catch`),
return a non-throwing error object (`dbError`, the `if (error)` branch),
find no row (`noRow`, the `if (!data)` branch), or return the stored
base64 payload (`row`). -/
inductive ReadResult where
  | thrown (e : String)
  | dbError (e : String)
  | noRow
  | row (b64 : String)
deriving DecidableEq, Repr

/-- Result of a `save` call, as observable by the caller: every constructor
is a logged return, never a propagated exception.  `saved` carries the row
upserted into Supabase. -/
inductive SaveOutcome where
  | saved (row : String)
  | upsertErrorLogged
  | errorLogged
deriving DecidableEq, Repr

/-- The row `save` wrote into the remote store, if any. -/
def SaveOutcome.wroteRow : SaveOutcome → Option String
  | .saved r => some r
  | .upsertErrorLogged => none
  | .errorLogged => none

/-- `SupabaseStore.sessionExists({ session })` (src/server.js lines 79-93):
the awaited `maybeSingle()` either throws (`Except.error`, handled by the
`catch` which returns `false`) or yields `data` (a row or `null`); the
method returns `!!data`. -/
def SupabaseStore.sessionExists (resp : Except String (Option String)) : Bool :=
  tryCatch (do
    let data ← resp
    pure data.isSome)
    (fun _ => false)

/-- The part of `SupabaseStore.save` after the `await waitForFile(...)`:
`fs.readFileSync` (whose thrown error, like a `waitForFile` rejection, is
caught by the method's `catch` and logged) followed by the upsert, whose
non-throwing `error` field is only logged. -/
def saveAfterWait (waited : Option Nat) (readResult : Except String String)
    (upsertError : Option String) : SaveOutcome :=
  match waited with
  | none => .errorLogged
  | some _ =>
    match readResult with
    | .error _ => .errorLogged
    | .ok base64 =>
      match upsertError with
      | some _ => .upsertErrorLogged
      | none => .saved base64

/-- `SupabaseStore.save({ session, path })` (src/server.js lines 97-121):
waits up to 20000 ms (polling every 500 ms) for the zip that RemoteAuth
wrote, reads it, and upserts its base64 into Supabase.  `zipAt t` says
whether the zip exists at elapsed time `t`. -/
def SupabaseStore.save (zipAt : Nat → Bool) (readResult : Except String String)
    (upsertError : Option String) : SaveOutcome :=
  saveAfterWait (waitForFile zipAt 20000 500 pos500 0) readResult upsertError

/-- `SupabaseStore.extract({ session, path })` (src/server.js lines 125-149):
returns the bytes written to `destPath`, or `none` when nothing is written
(`error` branch, `!data` branch, and the `catch` for a thrown read or a
failed `writeFileSync`).  `Buffer.from(b64, 'base64')` decoding is a
bijection on valid payloads and irrelevant to the claims, so the written
bytes are represented by the stored payload itself. -/
def SupabaseStore.extract : ReadResult → Option String
  | .thrown _ => none
  | .dbError _ => none
  | .noRow => none
  | .row b64 => some b64

/-- `SupabaseStore.delete({ session })` (src/server.js lines 151-161):
returns `true` when the awaited Supabase delete completed (and the deletion
log line ran), `false` when it threw and the `catch` logged instead; in both
cases the method returns normally. -/
def SupabaseStore.delete (resp : Except String Unit) : Bool :=
  tryCatch (do
    let _ ← resp
    pure true)
    (fun _ => false)

/-! ## Lifecycle state machine (src/server.js, lines 169-272)

Module-level mutable state:
```
let qrImageBase64 = null
let isReady       = false
let client        = null
let initAttempts  = 0
```
plus, for the claims, the number of live (constructed and never destroyed)
opaque client instances, whether the store holds a session blob, and the
currently scheduled restart timer's delay.  `src/server.js` contains no
`client.destroy()` call anywhere, so a constructed client instance is never
torn down; `initClient` always constructs and initializes a fresh instance
on top of whatever is already live. -/

structure SrvState where
  isReady : Bool
  qrImage : Bool
  initAttempts : Nat
  liveClients : Nat
  storedSession : Bool
  pendingRestart : Option Nat
deriving DecidableEq, Repr

/-- `initClient()` (lines 196-269): `initAttempts++`, then construct a new
`Client` and call its initialization — one more live instance; the previous
instance (if any) is not destroyed, since no teardown call exists in the
file. -/
def initClient (s : SrvState) : SrvState :=
  { s with initAttempts := s.initAttempts + 1,
           liveClients := s.liveClients + 1 }

/-- `client.on('qr', ...)` (lines 227-235): `isReady = false`; cache the QR
image. -/
def onQr (s : SrvState) : SrvState :=
  { s with isReady := false, qrImage := true }

/-- `client.on('authenticated', ...)` (lines 237-239): log only. -/
def onAuthenticated (s : SrvState) : SrvState :=
  s

/-- `client.on('ready', ...)` (lines 241-246):
`isReady = true; qrImageBase64 = null; initAttempts = 0`. -/
def onReady (s : SrvState) : SrvState :=
  { s with isReady := true, qrImage := false, initAttempts := 0 }

/-- `client.on('auth_failure', ...)` (lines 253-259): `isReady = false`;
`await store.delete(...)`; `setTimeout(() => initClient(), 8000)`. -/
def onAuthFailure (s : SrvState) : SrvState :=
  { s with isReady := false, storedSession := false,
           pendingRestart := some 8000 }

/-- The delay computed by the `disconnected` handler (line 264):
`Math.min(5000 * initAttempts, 60000)`. -/
def disconnectDelay (attempts : Nat) : Nat :=
  min (5000 * attempts) 60000

/-- `client.on('disconnected', ...)` (lines 261-267): `isReady = false`;
schedule `initClient` after `Math.min(5000 * initAttempts, 60000)` ms.  The
handler does not destroy the client and does not touch `initAttempts`. -/
def onDisconnected (s : SrvState) : SrvState :=
  { s with isReady := false,
           pendingRestart := some (disconnectDelay s.initAttempts) }

/-- The scheduled restart timer fires: `initClient()` runs again. -/
def fireRestart (s : SrvState) : SrvState :=
  initClient { s with pendingRestart := none }

/-- One full disconnect/restart cycle: the `disconnected` handler schedules
the restart, then the timer fires and `initClient` re-runs. -/
def disconnectCycle (s : SrvState) : SrvState :=
  fireRestart (onDisconnected s)

/-- The state at process start, before the top-level `initClient()` call:
no client, no QR, zero attempts (the store may or may not hold a blob; the
traces below start from a stored session). -/
def s0 : SrvState :=
  { isReady := false, qrImage := false, initAttempts := 0,
    liveClients := 0, storedSession := true, pendingRestart := none }

/-! ## The part_002 lifecycle cycle (src/unnamed/part_002, lines 161-219)

The variant that arms a periodic backstop-save timer:
```
async function initClient() {
  await restoreSession()
  client = new Client({ ... })
  ...
  client.on('disconnected', async (reason) => {
    isReady = false
    if (reason === 'LOGOUT') { await supabase...delete()... }
    setTimeout(() => {
      client?.destroy().catch(() => {})
      initClient()
    }, 8000)
  })
  setInterval(saveSession, 15 * 60 * 1000)
  await client.initialize()
}
```
`setInterval` arms a new periodic-save timer on every `initClient` run and
no `clearInterval` exists anywhere in the file; `client?.destroy()` is
started but not awaited before `initClient()` constructs the next
instance. -/

structure Part2State where
  isReady : Bool
  storedSession : Bool
  liveClients : Nat
  saveTimers : Nat
  destroysInFlight : Nat
deriving DecidableEq, Repr

/-- `initClient()` of part_002: restore, construct and initialize a new
client (one more live instance), and arm one more periodic
`setInterval(saveSession, 15 * 60 * 1000)` timer — without clearing any
previously armed one, since the file contains no `clearInterval`. -/
def initClient2 (s : Part2State) : Part2State :=
  { s with liveClients := s.liveClients + 1,
           saveTimers := s.saveTimers + 1 }

/-- The `disconnected` handler body of part_002 (lines 203-215), run at the
moment the event fires: `isReady = false`, and on an explicit logout the
stored row is deleted; the restart is left to the 8000 ms timer. -/
def onDisconnected2 (reason : String) (s : Part2State) : Part2State :=
  if reason = "LOGOUT" then { s with isReady := false, storedSession := false }
  else { s with isReady := false }

/-- The 8000 ms restart timer body of part_002: `client?.destroy()` is
initiated (not awaited — the teardown is still in flight) and `initClient()`
runs immediately after. -/
def disconnectTimerFire2 (s : Part2State) : Part2State :=
  initClient2 { s with destroysInFlight := s.destroysInFlight + 1 }

/-- Process start state for the part_002 variant. -/
def p0 : Part2State :=
  { isReady := false, storedSession := true, liveClients := 0,
    saveTimers := 0, destroysInFlight := 0 }

/-! ## Helper lemmas about the phone normalizer -/

theorem string_length_data (s : String) : s.length = s.data.length := rfl

theorem digitsOnlyL_isDigit (l : List Char) :
    ∀ c ∈ digitsOnlyL l, c.isDigit = true := by
  intro c hc
  exact (List.mem_filter.mp hc).2

theorem digitsOnlyL_of_forall {l : List Char} (h : ∀ c ∈ l, c.isDigit = true) :
    digitsOnlyL l = l :=
  List.filter_eq_self.mpr h

theorem validatePhoneL_digits {raw p : List Char}
    (h : validatePhoneL raw = some p) : ∀ c ∈ p, c.isDigit = true := by
  simp only [validatePhoneL] at h
  split at h
  · exact absurd h (by simp)
  split at h
  · exact Option.some_injective _ h ▸ digitsOnlyL_isDigit raw
  split at h
  · rw [← Option.some_injective _ h]
    intro c hc
    rcases hc with _ | ⟨_, _ | ⟨_, hc⟩⟩
    · decide
    · decide
    · exact digitsOnlyL_isDigit raw c hc
  split at h
  · exact Option.some_injective _ h ▸ digitsOnlyL_isDigit raw
  · exact absurd h (by simp)

theorem validatePhoneL_shape {raw p : List Char}
    (h : validatePhoneL raw = some p) :
    (p.take 2 = ['3', '4'] ∧ p.length = 11) ∨ (10 ≤ p.length ∧ p.length ≤ 15) := by
  simp only [validatePhoneL] at h
  split at h
  · exact absurd h (by simp)
  next hrange =>
    split at h
    next h34 =>
      left
      rw [← Option.some_injective _ h]
      exact h34
    next =>
      split at h
      next h9 =>
        left
        rw [← Option.some_injective _ h]
        refine ⟨rfl, ?_⟩
        simp [h9]
      next =>
        split at h
        next h10 =>
          right
          rw [← Option.some_injective _ h]
          omega
        next => exact absurd h (by simp)

theorem validatePhoneL_idem {raw p : List Char}
    (h : validatePhoneL raw = some p) : validatePhoneL p = some p := by
  have hd : digitsOnlyL p = p := digitsOnlyL_of_forall (validatePhoneL_digits h)
  have hs := validatePhoneL_shape h
  simp only [validatePhoneL, hd]
  rcases hs with ⟨h34, h11⟩ | ⟨h10, h15⟩
  · rw [if_neg (by omega), if_pos ⟨h34, h11⟩]
  · rw [if_neg (by omega)]
    by_cases h2 : List.take 2 p = ['3', '4'] ∧ p.length = 11
    · rw [if_pos h2]
    · rw [if_neg h2, if_neg (by omega : ¬p.length = 9), if_pos h10]

theorem validatePhone_some {raw p : String} (h : validatePhone raw = some p) :
    validatePhoneL raw.data = some p.data := by
  simp only [validatePhone, Option.map_eq_some'] at h
  obtain ⟨l, hl, hmk⟩ := h
  rw [← hmk]
  exact hl

theorem validatePhone_out_of_range (raw : String)
    (h : (digitsOnlyL raw.data).length < 9 ∨ 15 < (digitsOnlyL raw.data).length) :
    validatePhone raw = none := by
  simp only [validatePhone, validatePhoneL]
  rw [if_pos h]
  rfl

theorem sanitizeMessage_long (m : String) (h : 2000 < m.trim.length) :
    sanitizeMessage (some m) = none := by
  simp only [sanitizeMessage]
  split_ifs with h1 h2
  · rfl
  · rfl
  · exact absurd (Or.inr h) h2

/-- C10: the recipient normalization of src/unnamed/part_002 is idempotent
on its accepted outputs — whenever `validatePhone raw` accepts and returns a
normalized number `p`, running `validatePhone` on `p` returns `p` itself,
and every accepted output is a pure digit string of 10 to 15 digits. -/
theorem validatePhone_idempotent (raw p : String)
    (h : validatePhone raw = some p) :
    validatePhone p = some p ∧ 10 ≤ p.length ∧ p.length ≤ 15
    ∧ (∀ c ∈ p.data, c.isDigit = true) := by
  have hl : validatePhoneL raw.data = some p.data := validatePhone_some h
  have hidem := validatePhoneL_idem hl
  refine ⟨?_, ?_, ?_, validatePhoneL_digits hl⟩
  · simp only [validatePhone, hidem, Option.map_some']
  · rw [string_length_data]
    rcases validatePhoneL_shape hl with ⟨_, h11⟩ | ⟨h10, _⟩ <;> omega
  · rw [string_length_data]
    rcases validatePhoneL_shape hl with ⟨_, h11⟩ | ⟨_, h15⟩ <;> omega

/-- Witness for C10: the 9-digit local number "612345678" is accepted as
"34612345678" (the "34" prefix added exactly once), and re-validating that
output returns it unchanged. -/
theorem validatePhone_idempotent_witness :
    validatePhone "612345678" = some "34612345678"
    ∧ validatePhone "34612345678" = some "34612345678" :=
  ⟨by decide, (validatePhone_idempotent "612345678" "34612345678" (by decide)).1⟩

/-- C5: in the src/unnamed/part_002 send path, a recipient whose digits-only
normalization fails validation (no digits, or outside the 9-15 digit range)
or a message that sanitizes to nothing (empty, or over the 2000-character
maximum) is rejected with HTTP 400 and `client.sendMessage` is never
invoked; the concrete spec examples hold: "abc" is rejected, and the 9-digit
local number "612345678" normalizes to the 11-digit "34612345678" by
prepending the configured country prefix "34". -/
theorem send_validation_boundary :
    (∀ (isReady clientLive sendOk : Bool) (rawPhone rawMessage : Option String),
      validatePhone (rawPhone.getD "") = none ∨ sanitizeMessage rawMessage = none →
      sendHandlerSecure isReady clientLive sendOk rawPhone rawMessage = (400, none))
    ∧ (∀ raw : String,
        (digitsOnlyL raw.data).length < 9 ∨ 15 < (digitsOnlyL raw.data).length →
        validatePhone raw = none)
    ∧ validatePhone "abc" = none
    ∧ sanitizeMessage (some "") = none
    ∧ (∀ m : String, 2000 < m.trim.length → sanitizeMessage (some m) = none)
    ∧ validatePhone "612345678" = some "34612345678"
    ∧ ("34612345678" : String).length = 11 := by
  refine ⟨?_, validatePhone_out_of_range, by decide, by decide,
    sanitizeMessage_long, by decide, by decide⟩
  intro isReady clientLive sendOk rawPhone rawMessage h
  rcases h with h | h
  · simp [sendHandlerSecure, h]
  · cases hv : validatePhone (rawPhone.getD "") with
    | none => simp [sendHandlerSecure, hv]
    | some phone => simp [sendHandlerSecure, hv, h]

/-- Witness for C5: the recipient "abc" (no digits) is a concrete input on
which validation fails, and the part_002 handler answers 400 without
invoking the client even when the controller is ready. -/
theorem send_validation_boundary_witness :
    (validatePhone "abc" = none ∨ sanitizeMessage (some "hola") = none)
    ∧ sendHandlerSecure true true true (some "abc") (some "hola") = (400, none) :=
  ⟨Or.inl (by decide),
    send_validation_boundary.1 true true true (some "abc") (some "hola")
      (Or.inl (by decide))⟩

/-- C6 counterexample: the claim says every `/send` request made while the
controller is not READY gets HTTP 503 regardless of its content; but both
handlers run body validation first, so a not-ready request with a missing
`phone` field gets HTTP 400, not 503. -/
theorem send_notReady_counterexample :
    (sendHandler false false true none (some "hola")).1 = 400
    ∧ (sendHandlerSecure false false true none (some "hola")).1 = 400
    ∧ (400 : Nat) ≠ 503 := by
  refine ⟨by decide, by decide, by decide⟩

/-- C6 amended: while the controller is not READY, `client.sendMessage` is
never invoked and the response is 503 except for requests that fail the
handler's body validation, which get 400 even when not ready; in particular
every request with a well-formed body (both fields present and truthy)
receives exactly 503. -/
theorem send_notReady_503 (clientLive sendOk : Bool)
    (phone message : Option String) :
    (sendHandler false clientLive sendOk phone message).2 = none
    ∧ ((sendHandler false clientLive sendOk phone message).1 = 503
        ∨ (sendHandler false clientLive sendOk phone message).1 = 400)
    ∧ (truthy phone = true → truthy message = true →
        (sendHandler false clientLive sendOk phone message).1 = 503) := by
  cases hp : truthy phone <;> cases hm : truthy message <;>
    simp [sendHandler, hp, hm]

/-- Witness for C6 (amended): a well-formed request while not ready gets
503 and the client is not invoked. -/
theorem send_notReady_503_witness :
    truthy (some "612345678") = true ∧ truthy (some "hola") = true
    ∧ (sendHandler false true true (some "612345678") (some "hola")).1 = 503 :=
  ⟨by decide, by decide,
    (send_notReady_503 true true (some "612345678") (some "hola")).2.2
      (by decide) (by decide)⟩

/-! ## Helper lemma: the polling loop rejects when the file never appears -/

theorem waitForFile_none_of_absent (ex : Nat → Bool) (T i : Nat)
    (hpos : 0 < i) (hex : ∀ t, ex t = false) :
    ∀ t, waitForFile ex T i hpos t = none := by
  have key : ∀ k t, T - t ≤ k → waitForFile ex T i hpos t = none := by
    intro k
    induction k with
    | zero =>
      intro t ht
      rw [waitForFile, hex t]
      simp only [Bool.false_eq_true, if_false]
      rw [if_pos (by omega)]
    | succ k ih =>
      intro t ht
      rw [waitForFile, hex t]
      simp only [Bool.false_eq_true, if_false]
      split
      · rfl
      · exact ih (t + i) (by omega)
  intro t
  exact key (T - t) t le_rfl

/-- C8: the bounded-wait file materialization terminates on every input —
for any positive polling interval, when the file never appears the loop
stops once the elapsed time reaches the timeout and rejects (`none`) rather
than polling forever; and `SupabaseStore.save`, whose only wait is
`waitForFile(zipPath, 20000)` at a 500 ms interval, absorbs that rejection
into a logged no-op instead of propagating it. -/
theorem waitForFile_bounded (ex : Nat → Bool) (T i : Nat)
    (hpos : 0 < i) (hex : ∀ t, ex t = false) :
    waitForFile ex T i hpos 0 = none
    ∧ (∀ readResult upsertError,
        SupabaseStore.save (fun _ => false) readResult upsertError
          = .errorLogged) := by
  constructor
  · exact waitForFile_none_of_absent ex T i hpos hex 0
  · intro readResult upsertError
    unfold SupabaseStore.save
    rw [waitForFile_none_of_absent (fun _ => false) 20000 500 pos500
      (fun _ => rfl) 0]
    rfl

/-- Witness for C8: with the source's default timeout (20000 ms) and
interval (500 ms) and a file that never appears, the wait rejects and the
enclosing save is a logged no-op. -/
theorem waitForFile_bounded_witness :
    (0 : Nat) < 500
    ∧ (∀ t : Nat, (fun _ : Nat => false) t = false)
    ∧ waitForFile (fun _ => false) 20000 500 pos500 0 = none :=
  ⟨by decide, fun _ => rfl,
    (waitForFile_bounded (fun _ => false) 20000 500 pos500
      (fun _ => rfl)).1⟩

/-- C4: every `SupabaseStore` operation is total with respect to underlying
store/transport errors — each method's `catch` absorbs the thrown error and
the method returns its safe value instead of propagating an exception:
`sessionExists` returns `false` on a thrown error exactly as on a missing
row; `extract` writes nothing to the destination on a thrown error, on a
non-throwing error object, and on a missing row alike; `save` completes as
a logged no-op (writing no row to the remote store) when the zip never
materializes or the read throws; and `delete` returns normally when the
remote delete throws. -/
theorem store_error_totality (e : String) :
    SupabaseStore.sessionExists (.error e) = false
    ∧ SupabaseStore.sessionExists (.ok none) = false
    ∧ SupabaseStore.extract (.thrown e) = none
    ∧ SupabaseStore.extract (.dbError e) = none
    ∧ SupabaseStore.extract .noRow = none
    ∧ (∀ readResult upsertError,
        (SupabaseStore.save (fun _ => false) readResult upsertError).wroteRow
          = none)
    ∧ (∀ (zipAt : Nat → Bool) upsertError,
        (SupabaseStore.save zipAt (.error e) upsertError).wroteRow = none)
    ∧ SupabaseStore.delete (.error e) = false := by
  refine ⟨rfl, rfl, rfl, rfl, rfl, ?_, ?_, rfl⟩
  · intro readResult upsertError
    unfold SupabaseStore.save
    rw [waitForFile_none_of_absent (fun _ => false) 20000 500 pos500
      (fun _ => rfl) 0]
    rfl
  · intro zipAt upsertError
    unfold SupabaseStore.save
    generalize waitForFile zipAt 20000 500 pos500 0 = w
    cases w <;> rfl

/-! ## Helper lemma: the attempt counter along consecutive disconnect cycles -/

theorem disconnectCycle_attempts (s : SrvState) (n : Nat) :
    (disconnectCycle^[n] s).initAttempts = s.initAttempts + n := by
  induction n with
  | zero => rfl
  | succ n ih =>
    rw [Function.iterate_succ_apply']
    show ((disconnectCycle^[n] s).initAttempts + 1) = s.initAttempts + (n + 1)
    omega

/-- C1 (code bug evidence): in src/server.js, a `disconnected` event while a
client instance is live, followed by the scheduled restart firing, leaves
two concurrently live client instances — `initClient` constructs and
initializes a new `Client` and the file contains no call that tears the
previous one down, so "at most one live instance per process" fails on this
reachable execution. -/
theorem double_instance_after_disconnect :
    (fireRestart (onDisconnected (initClient s0))).liveClients = 2
    ∧ ¬(fireRestart (onDisconnected (initClient s0))).liveClients ≤ 1 := by
  refine ⟨rfl, by decide⟩

/-- C2: the `disconnected` handler schedules the restart after
`min(5000 * initAttempts, 60000)` ms, and the restart it schedules
increments the attempt counter by exactly one; hence along any run of
consecutive disconnect/restart cycles with no intervening `ready`, the
scheduled delays are non-decreasing and every delay is at most 60000 ms. -/
theorem disconnect_backoff (s : SrvState) (m n : Nat) :
    (onDisconnected s).pendingRestart = some (min (5000 * s.initAttempts) 60000)
    ∧ (disconnectCycle s).initAttempts = s.initAttempts + 1
    ∧ (m ≤ n →
        disconnectDelay ((disconnectCycle^[m]) s).initAttempts
          ≤ disconnectDelay ((disconnectCycle^[n]) s).initAttempts)
    ∧ disconnectDelay ((disconnectCycle^[n]) s).initAttempts ≤ 60000 := by
  refine ⟨rfl, rfl, ?_, ?_⟩
  · intro hmn
    rw [disconnectCycle_attempts, disconnectCycle_attempts]
    unfold disconnectDelay
    omega
  · unfold disconnectDelay
    omega

/-- Witness for C2: from the boot state, the delay scheduled at the second
consecutive disconnect is at least the delay scheduled at the first. -/
theorem disconnect_backoff_witness :
    1 ≤ 2
    ∧ disconnectDelay ((disconnectCycle^[1]) s0).initAttempts
        ≤ disconnectDelay ((disconnectCycle^[2]) s0).initAttempts :=
  ⟨by decide, (disconnect_backoff s0 1 2).2.2.1 (by decide)⟩

/-- C3: the attempt counter is reset to zero exactly and only by the
`ready` handler — the `qr`, `authenticated`, `auth_failure` and
`disconnected` handlers leave `initAttempts` unchanged, `ready` sets it to
0, and a cycle that authenticates but never reaches ready (authenticated,
then auth failure, then the scheduled re-init) strictly grows the
counter. -/
theorem attempts_reset_only_on_ready (s : SrvState) :
    (onQr s).initAttempts = s.initAttempts
    ∧ (onAuthenticated s).initAttempts = s.initAttempts
    ∧ (onAuthFailure s).initAttempts = s.initAttempts
    ∧ (onDisconnected s).initAttempts = s.initAttempts
    ∧ (onReady s).initAttempts = 0
    ∧ (fireRestart (onAuthFailure (onAuthenticated s))).initAttempts
        = s.initAttempts + 1 :=
  ⟨rfl, rfl, rfl, rfl, rfl, rfl⟩

/-- C7: the `auth_failure` handler deletes the stored session blob and
schedules the restart after the fixed 8000 ms delay, for every state — in
particular the delay is the same constant whatever the attempt counter is,
unlike the `disconnected` backoff. -/
theorem authFailure_fixed_delay (s t : SrvState) :
    (onAuthFailure s).storedSession = false
    ∧ (onAuthFailure s).pendingRestart = some 8000
    ∧ (onAuthFailure s).pendingRestart = (onAuthFailure t).pendingRestart :=
  ⟨rfl, rfl, rfl⟩

/-- C9 (code bug evidence): in src/unnamed/part_002, `initClient` arms a
periodic `setInterval(saveSession, ...)` timer and the file contains no
`clearInterval`; after one disconnect whose restart timer fires, the new
cycle's `initClient` arms its own periodic-save timer while the previous
cycle's is still pending, so two periodic-save timers are armed (and the
old client's teardown is still in flight), contradicting "at most one
pending periodic-save timer". -/
theorem stale_save_timer_after_restart :
    (disconnectTimerFire2 (onDisconnected2 "NAVIGATION" (initClient2 p0))).saveTimers = 2
    ∧ ¬(disconnectTimerFire2 (onDisconnected2 "NAVIGATION" (initClient2 p0))).saveTimers ≤ 1
    ∧ (disconnectTimerFire2 (onDisconnected2 "NAVIGATION" (initClient2 p0))).destroysInFlight = 1 := by
  refine ⟨by decide, by decide, by decide⟩
